import Mathlib

/-!
Verification of the ShopAudit Lite audit engine (`auditUrl` and its check
battery, scoring and aggregation) against its specification.

The engine is a TypeScript function `auditUrl(url) : Promise<AuditResult>`
that fetches a page, runs 22 checks over the parsed document plus two
auxiliary fetches (`robots.txt`, `sitemap.xml`), and folds the emitted
findings into a scored report.

Embedding notes:
* The HTTP fetches and the HTML parse are external capabilities.  They are
  modelled as explicit inputs (`Env`): the main fetch outcome, the parsed
  document (`Doc`, the exact set of queries the checks perform on the
  cheerio document), and the two auxiliary fetch outcomes.  Given those,
  the engine is a pure function and is embedded as one.
* JavaScript strings are modelled through `List Char`-based operations
  (`jsIncludes`, `jsTrim`, ...) so every definition evaluates inside the
  kernel.  `String.length` in JS counts UTF-16 units and `toLowerCase` is
  Unicode aware; the model counts code points and lowercases ASCII, which
  coincides on the ASCII patterns the engine matches on.
* JS numeric arithmetic in the score formula
  `Math.round(((passed * 1 + warnings * 0.4) / totalScorable) * 100)` is
  modelled exactly over the integers (numerator and denominator scaled by
  100): for every reachable tally (at most 22 findings) the IEEE-double
  evaluation agrees with the exact rational value, so the model is
  faithful on all reachable reports.
* `Date.now()` only feeds `responseTimeMs` and the report timestamp; the
  elapsed time of a successful main fetch is part of the environment and
  the timestamp (irrelevant to every claim) is omitted.
-/

namespace ShopAudit

/-! ## JavaScript string primitives, modelled over `List Char` -/

/-- Whitespace as matched by the `\s`-based operations the engine uses
(ASCII part; the pages' patterns are ASCII). -/
def jsWhitespaceChar (c : Char) : Bool :=
  c = ' ' || c = '\t' || c = '\n' || c = '\r' || c = '\x0b' || c = '\x0c'

/-- `pat` occurs as a contiguous substring (JS `String.prototype.includes`). -/
def listIncludes : List Char → List Char → Bool
  | _, [] => true
  | [], _ :: _ => false
  | c :: rest, p :: ps => (List.isPrefixOf (p :: ps) (c :: rest)) || listIncludes rest (p :: ps)

/-- JS `s.includes(pat)`. -/
def jsIncludes (s pat : String) : Bool := listIncludes s.toList pat.toList

/-- JS `s.startsWith(pat)`. -/
def jsStartsWith (s pat : String) : Bool := List.isPrefixOf pat.toList s.toList

/-- JS `s.trim()` (ASCII whitespace model). -/
def jsTrim (s : String) : String :=
  ⟨((s.toList.dropWhile jsWhitespaceChar).reverse.dropWhile jsWhitespaceChar).reverse⟩

/-- JS `s.substring(0, n)`. -/
def jsSubstringTo (s : String) (n : Nat) : String := ⟨s.toList.take n⟩

/-- ASCII lower-casing of one character (JS `toLowerCase` restricted to
the ASCII range, which covers the patterns matched by the engine). -/
def charLower (c : Char) : Char :=
  match c with
  | 'A' => 'a' | 'B' => 'b' | 'C' => 'c' | 'D' => 'd' | 'E' => 'e' | 'F' => 'f'
  | 'G' => 'g' | 'H' => 'h' | 'I' => 'i' | 'J' => 'j' | 'K' => 'k' | 'L' => 'l'
  | 'M' => 'm' | 'N' => 'n' | 'O' => 'o' | 'P' => 'p' | 'Q' => 'q' | 'R' => 'r'
  | 'S' => 's' | 'T' => 't' | 'U' => 'u' | 'V' => 'v' | 'W' => 'w' | 'X' => 'x'
  | 'Y' => 'y' | 'Z' => 'z'
  | other => other

/-- JS `s.toLowerCase()` (ASCII model). -/
def jsToLower (s : String) : String := ⟨s.toList.map charLower⟩

/-- JS `s.length` (code points; UTF-16 units in JS, identical on ASCII). -/
def jsLength (s : String) : Nat := s.toList.length

/-- Number of maximal non-whitespace runs; the `inWord` flag records
whether the previous character belonged to a word. -/
def countWordsAux : List Char → Bool → Nat
  | [], _ => 0
  | c :: rest, inWord =>
    if jsWhitespaceChar c then countWordsAux rest false
    else (if inWord then 0 else 1) + countWordsAux rest true

/-- `s.replace(/\s+/g, ' ').trim().split(' ').filter(w => w.length > 0).length`:
the number of maximal non-whitespace runs of `s`. -/
def jsWordCount (s : String) : Nat := countWordsAux s.toList false

/-- JS falsiness of a possibly-undefined string (`!x`): undefined or `''`. -/
def jsFalsy : Option String → Bool
  | none => true
  | some s => s = ""

/-- JS `x || null` on a string: `''` and absent collapse to `null`. -/
def jsOrNull (s : String) : Option String := if s = "" then none else some s

/-- JS `x || null` on a possibly-undefined string. -/
def jsOrNullOpt : Option String → Option String
  | none => none
  | some s => jsOrNull s

/-- JS `Math.round (num / den)` for non-negative arguments and `den > 0`:
round half toward positive infinity, i.e. `⌊num/den + 1/2⌋`. -/
def jsRound (num den : Nat) : Nat := (2 * num + den) / (2 * den)

/-- `(ms / 1000).toFixed(1)`: one-decimal rendering of a millisecond count
as seconds (exact decimal model of the JS float formatting). -/
def toFixed1Seconds (ms : Nat) : String :=
  let t := jsRound ms 100
  toString (t / 10) ++ "." ++ toString (t % 10)

/-! ## Data model (from the `AuditResult` / `AuditCheck` interfaces) -/

/-- `AuditCheck.status`: `'critical' | 'warning' | 'passed' | 'info'`. -/
inductive Status
  | critical | warning | passed | info
deriving DecidableEq

/-- `AuditCheck.category`:
`'meta' | 'content' | 'images' | 'technical' | 'social' | 'performance'`. -/
inductive Category
  | meta | content | images | technical | social | performance
deriving DecidableEq

/-- One finding, as emitted by a check (interface `AuditCheck`). -/
structure AuditCheck where
  id : String
  name : String
  category : Category
  status : Status
  message : String
  details : Option (List String) := none
  fix : Option String := none
deriving DecidableEq

/-- The severity tally of a report (`AuditResult.summary`). -/
structure Summary where
  critical : Nat
  warnings : Nat
  passed : Nat
  info : Nat
deriving DecidableEq

/-- Page metadata (`AuditResult.meta`). -/
structure PageMeta where
  title : Option String
  description : Option String
  ogImage : Option String
  favicon : Option String
  responseTimeMs : Nat
  htmlSizeKb : Nat
  isShopify : Bool
deriving DecidableEq

/-- The initial `meta` object of `auditUrl` (all null/zero defaults). -/
def defaultMeta : PageMeta :=
  { title := none, description := none, ogImage := none, favicon := none,
    responseTimeMs := 0, htmlSizeKb := 0, isShopify := false }

/-- The terminal report (`AuditResult`); the `timestamp : Date` field is
omitted (wall-clock, read by no logic and by no claim). -/
structure AuditResult where
  url : String
  score : Nat
  grade : String
  checks : List AuditCheck
  summary : Summary
  meta : PageMeta
deriving DecidableEq

/-! ## Environment: fetch outcomes and the parsed document

`axios` and `cheerio` are external capabilities; the engine's behaviour is
a function of their results, which the structures below record. -/

/-- Result of an auxiliary `axios.get` with `validateStatus: () => true`:
`none` models the thrown timeout/network error (the surrounding `catch`),
`some` carries HTTP status and body text. -/
structure FetchResponse where
  status : Nat
  body : String
deriving DecidableEq

/-- One `<img>` element: its `alt`, `src` and `loading` attributes
(`none` = attribute absent). -/
structure Img where
  alt : Option String
  src : Option String
  loading : Option String
deriving DecidableEq

/-- The queries the check battery performs on the cheerio document of the
fetched page, recorded as data: each field is the result of the
corresponding selector in the source. -/
structure Doc where
  /-- `$('title').text()` -/
  titleText : String
  /-- `$('meta[name="description"]').attr('content')` -/
  descriptionContent : Option String
  /-- `$('link[rel="canonical"]').attr('href')` -/
  canonicalHref : Option String
  /-- `$('html').attr('lang')` -/
  htmlLang : Option String
  /-- texts of the `$('h1')` elements, in document order -/
  h1Texts : List String
  /-- numeric levels of `$('h1, h2, h3, h4, h5, h6')` in document order
  (`parseInt(el.tagName.charAt(1))`) -/
  headingLevels : List Nat
  /-- `$('body').text()` -/
  bodyText : String
  /-- the `$('img')` elements in document order -/
  imgs : List Img
  /-- `$('meta[name="viewport"]').attr('content')` -/
  viewportContent : Option String
  /-- `$('link[rel="icon"], link[rel="shortcut icon"]').attr('href')` -/
  faviconHref : Option String
  /-- `$('script[type="application/ld+json"]').length` -/
  jsonLdCount : Nat
  /-- the `@type` strings successfully extracted by `JSON.parse` from the
  JSON-LD blocks, in order (parse failures are swallowed per block) -/
  jsonLdTypes : List String
  /-- `$('meta[name="robots"]').attr('content')` -/
  robotsMetaContent : Option String
  /-- `$('meta[property="og:title"]').attr('content')` -/
  ogTitle : Option String
  /-- `$('meta[property="og:image"]').attr('content')` -/
  ogImage : Option String
  /-- `$('meta[property="og:description"]').attr('content')` -/
  ogDescription : Option String
  /-- `$('meta[name="twitter:card"]').attr('content')` -/
  twitterCard : Option String
  /-- `!!$('meta[name="shopify-checkout-api-token"]').length` -/
  shopifyCheckoutMeta : Bool
deriving DecidableEq

/-- A successful main fetch: the response body, the parsed document and
the elapsed time `Date.now() - startTime` recorded right after the await. -/
structure MainSuccess where
  body : String
  doc : Doc
  elapsedMs : Nat
deriving DecidableEq

/-- Outcome of the main fetch block:
* `netErr msg` — `axios.get` itself threw (network error, timeout,
  non-2xx status under the default `validateStatus`); nothing after line
  `const response = await axios.get(...)` ran;
* `badBody msg elapsedMs` — a response arrived (so `meta.responseTimeMs`
  was assigned `elapsedMs`) but `Buffer.byteLength(response.data, 'utf8')`
  threw because the body was not a string (e.g. a JSON response parsed by
  axios), jumping to the same `catch`;
* `ok` — the body is a string and the document was parsed. -/
inductive MainResult
  | netErr (msg : String)
  | badBody (msg : String) (elapsedMs : Nat)
  | ok (m : MainSuccess)
deriving DecidableEq

/-- All external inputs of one `auditUrl` run. -/
structure Env where
  main : MainResult
  /-- outcome of `axios.get(new URL('/robots.txt', url).href, ...)` -/
  robots : Option FetchResponse
  /-- outcome of `axios.get(new URL('/sitemap.xml', url).href, ...)` -/
  sitemap : Option FetchResponse
deriving DecidableEq

/-! ## The engine -/

/-- `gradeFromScore`. -/
def gradeFromScore (score : Nat) : String :=
  if score ≥ 90 then "A+"
  else if score ≥ 80 then "A"
  else if score ≥ 70 then "B"
  else if score ≥ 60 then "C"
  else if score ≥ 50 then "D"
  else "F"

/-- `if (!url.startsWith('http')) url = 'https://' + url;` -/
def normalizeUrl (url : String) : String :=
  if jsStartsWith url "http" then url else "https://" ++ url

/-- Check 1: page title. -/
def titleCheck (titleText : String) : AuditCheck :=
  let title := jsTrim titleText
  if title = "" then
    { id := "meta-title", name := "Page Title", category := Category.meta,
      status := Status.critical, message := "Missing page title",
      fix := some "Add a descriptive <title> tag (50-60 characters)" }
  else if jsLength title < 30 then
    { id := "meta-title", name := "Page Title", category := Category.meta,
      status := Status.warning,
      message := "Title too short (" ++ toString (jsLength title) ++ " chars)",
      details := some ["\"" ++ title ++ "\""],
      fix := some "Expand to 50-60 characters with relevant keywords" }
  else if jsLength title > 60 then
    { id := "meta-title", name := "Page Title", category := Category.meta,
      status := Status.warning,
      message := "Title may be truncated (" ++ toString (jsLength title) ++ " chars)",
      details := some ["\"" ++ jsSubstringTo title 60 ++ "...\""],
      fix := some "Shorten to under 60 characters" }
  else
    { id := "meta-title", name := "Page Title", category := Category.meta,
      status := Status.passed,
      message := "Good title (" ++ toString (jsLength title) ++ " chars)" }

/-- Check 2: meta description. -/
def descCheck (descriptionContent : Option String) : AuditCheck :=
  let desc := descriptionContent.map jsTrim
  match desc with
  | none =>
    { id := "meta-desc", name := "Meta Description", category := Category.meta,
      status := Status.critical, message := "Missing meta description",
      fix := some "Add <meta name=\"description\" content=\"...\"> (150-160 chars)" }
  | some d =>
    if d = "" then
      { id := "meta-desc", name := "Meta Description", category := Category.meta,
        status := Status.critical, message := "Missing meta description",
        fix := some "Add <meta name=\"description\" content=\"...\"> (150-160 chars)" }
    else if jsLength d < 120 then
      { id := "meta-desc", name := "Meta Description", category := Category.meta,
        status := Status.warning,
        message := "Description short (" ++ toString (jsLength d) ++ " chars)",
        fix := some "Expand to 150-160 characters" }
    else if jsLength d > 160 then
      { id := "meta-desc", name := "Meta Description", category := Category.meta,
        status := Status.warning,
        message := "Description may be truncated (" ++ toString (jsLength d) ++ " chars)",
        fix := some "Shorten to under 160 characters" }
    else
      { id := "meta-desc", name := "Meta Description", category := Category.meta,
        status := Status.passed,
        message := "Good description (" ++ toString (jsLength d) ++ " chars)" }

/-- Check 3: canonical URL. -/
def canonicalCheck (canonicalHref : Option String) : AuditCheck :=
  if jsFalsy canonicalHref then
    { id := "canonical", name := "Canonical URL", category := Category.meta,
      status := Status.warning, message := "Missing canonical URL",
      fix := some "Add <link rel=\"canonical\" href=\"...\"> to prevent duplicate content issues" }
  else
    { id := "canonical", name := "Canonical URL", category := Category.meta,
      status := Status.passed, message := "Canonical URL set" }

/-- Check 4: language attribute. -/
def langCheck (htmlLang : Option String) : AuditCheck :=
  match htmlLang with
  | none =>
    { id := "lang", name := "Language Attribute", category := Category.meta,
      status := Status.warning, message := "Missing lang attribute on <html>",
      fix := some "Add lang=\"en\" (or appropriate language) to <html> tag" }
  | some l =>
    if l = "" then
      { id := "lang", name := "Language Attribute", category := Category.meta,
        status := Status.warning, message := "Missing lang attribute on <html>",
        fix := some "Add lang=\"en\" (or appropriate language) to <html> tag" }
    else
      { id := "lang", name := "Language Attribute", category := Category.meta,
        status := Status.passed, message := "Language set: " ++ l }

/-- Check 5: H1 heading. -/
def h1Check (h1Texts : List String) : AuditCheck :=
  if h1Texts.length = 0 then
    { id := "h1", name := "H1 Heading", category := Category.content,
      status := Status.critical, message := "Missing H1 heading",
      fix := some "Add exactly one H1 that describes the page content" }
  else if h1Texts.length > 1 then
    { id := "h1", name := "H1 Heading", category := Category.content,
      status := Status.warning,
      message := toString h1Texts.length ++ " H1 headings found",
      details := some (h1Texts.map (fun t => jsSubstringTo (jsTrim t) 80)),
      fix := some "Use only one H1 per page" }
  else
    { id := "h1", name := "H1 Heading", category := Category.content,
      status := Status.passed,
      message := "H1: \"" ++ jsSubstringTo (jsTrim (h1Texts.headD "")) 60 ++ "\"" }

/-- The `hierarchyBroken` loop: some adjacent pair of heading levels
increases by more than 1. -/
def hierarchyBroken : List Nat → Bool
  | a :: b :: rest => ((b : Int) - (a : Int) > 1) || hierarchyBroken (b :: rest)
  | _ => false

/-- Check 6: heading hierarchy. -/
def headingCheck (headingLevels : List Nat) : AuditCheck :=
  if headingLevels.length = 0 then
    { id := "heading-hierarchy", name := "Heading Structure", category := Category.content,
      status := Status.warning, message := "No headings found",
      fix := some "Add structured headings (H1, then H2, then H3) for better SEO" }
  else if hierarchyBroken headingLevels then
    { id := "heading-hierarchy", name := "Heading Structure", category := Category.content,
      status := Status.warning, message := "Heading levels skip (e.g. H1 to H3)",
      details := some ["Sequence: " ++
        String.intercalate " → " ((headingLevels.take 10).map (fun l => "H" ++ toString l))],
      fix := some "Use sequential heading levels without skipping" }
  else
    { id := "heading-hierarchy", name := "Heading Structure", category := Category.content,
      status := Status.passed,
      message := toString headingLevels.length ++ " headings, proper hierarchy" }

/-- Check 7: word count. -/
def wordCountCheck (bodyText : String) : AuditCheck :=
  let wordCount := jsWordCount bodyText
  if wordCount < 300 then
    { id := "word-count", name := "Content Length", category := Category.content,
      status := Status.warning,
      message := "Thin content (" ++ toString wordCount ++ " words)",
      fix := some "Add more descriptive content (aim for 300+ words on key pages)" }
  else
    { id := "word-count", name := "Content Length", category := Category.content,
      status := Status.passed, message := toString wordCount ++ " words" }

/-- `$(img).attr('src')?.substring(0, 60) || 'unknown'`. -/
def missingAltEntry (src : Option String) : String :=
  match src with
  | none => "unknown"
  | some s => let t := jsSubstringTo s 60; if t = "" then "unknown" else t

/-- The `missingAlt` accumulation: sources of images whose `alt` is
absent or trims to the empty string. -/
def missingAltList (imgs : List Img) : List String :=
  imgs.filterMap (fun img =>
    match img.alt with
    | none => some (missingAltEntry img.src)
    | some a => if jsTrim a = "" then some (missingAltEntry img.src) else none)

/-- Check 8: image alt text. -/
def imgAltCheck (imgs : List Img) : AuditCheck :=
  let missingAlt := missingAltList imgs
  if imgs.length = 0 then
    { id := "img-alt", name := "Image Alt Text", category := Category.images,
      status := Status.info, message := "No images found on page" }
  else if missingAlt.length > 0 then
    { id := "img-alt", name := "Image Alt Text", category := Category.images,
      status := if missingAlt.length > 5 then Status.critical else Status.warning,
      message := toString missingAlt.length ++ "/" ++ toString imgs.length ++
        " images missing alt text",
      details := some (missingAlt.take 5),
      fix := some "Add descriptive alt text to all images for accessibility and SEO" }
  else
    { id := "img-alt", name := "Image Alt Text", category := Category.images,
      status := Status.passed,
      message := "All " ++ toString imgs.length ++ " images have alt text" }

/-- Check 9: lazy loading; skipped entirely (`none`) when the page has no
images. -/
def imgLazyCheck (imgs : List Img) : Option AuditCheck :=
  let lazyImages := (imgs.filter (fun i => i.loading == some "lazy")).length
  if imgs.length > 5 ∧ lazyImages = 0 then
    some { id := "img-lazy", name := "Image Lazy Loading", category := Category.images,
           status := Status.warning,
           message := toString imgs.length ++ " images, none lazy-loaded",
           fix := some "Add loading=\"lazy\" to below-the-fold images" }
  else if imgs.length > 0 then
    some { id := "img-lazy", name := "Image Lazy Loading", category := Category.images,
           status := Status.passed,
           message := toString lazyImages ++ "/" ++ toString imgs.length ++
             " images lazy-loaded" }
  else none

/-- Check 10: HTTPS (on the normalized URL). -/
def httpsCheck (url : String) : AuditCheck :=
  if !jsStartsWith url "https://" then
    { id := "https", name := "HTTPS", category := Category.technical,
      status := Status.critical, message := "Not using HTTPS",
      fix := some "Enable SSL/HTTPS — required for SEO and security" }
  else
    { id := "https", name := "HTTPS", category := Category.technical,
      status := Status.passed, message := "HTTPS enabled" }

/-- Check 11: mobile viewport. -/
def viewportCheck (viewportContent : Option String) : AuditCheck :=
  if jsFalsy viewportContent then
    { id := "viewport", name := "Mobile Viewport", category := Category.technical,
      status := Status.critical, message := "Missing viewport meta tag",
      fix := some "Add <meta name=\"viewport\" content=\"width=device-width, initial-scale=1\">" }
  else
    { id := "viewport", name := "Mobile Viewport", category := Category.technical,
      status := Status.passed, message := "Viewport configured" }

/-- Check 12: favicon. -/
def faviconCheck (faviconHref : Option String) : AuditCheck :=
  if jsFalsy faviconHref then
    { id := "favicon", name := "Favicon", category := Category.technical,
      status := Status.warning, message := "No favicon found",
      fix := some "Add a favicon for browser tabs and bookmarks" }
  else
    { id := "favicon", name := "Favicon", category := Category.technical,
      status := Status.passed, message := "Favicon set" }

/-- Check 13: structured data (JSON-LD). -/
def structuredDataCheck (jsonLdCount : Nat) (types : List String) : AuditCheck :=
  if jsonLdCount = 0 then
    { id := "structured-data", name := "Structured Data", category := Category.technical,
      status := Status.warning, message := "No JSON-LD structured data found",
      fix := some "Add Schema.org markup (Product, Organization, BreadcrumbList) for rich snippets" }
  else
    { id := "structured-data", name := "Structured Data", category := Category.technical,
      status := Status.passed,
      message := toString jsonLdCount ++ " JSON-LD block(s)",
      details := if types.length > 0
        then some ["Types: " ++ String.intercalate ", " types] else none }

/-- Check 14: robots meta tag. -/
def robotsMetaCheck (robotsMetaContent : Option String) : AuditCheck :=
  let robotsMeta := robotsMetaContent.map jsToLower
  match robotsMeta with
  | some rm =>
    if rm ≠ "" ∧ (jsIncludes rm "noindex" ∨ jsIncludes rm "nofollow") then
      { id := "robots-meta", name := "Robots Meta", category := Category.technical,
        status := Status.warning,
        message := "Page has restrictive robots: " ++ rm,
        fix := some "Remove noindex/nofollow if you want this page indexed" }
    else
      { id := "robots-meta", name := "Robots Meta", category := Category.technical,
        status := Status.passed, message := "No indexing restrictions" }
  | none =>
    { id := "robots-meta", name := "Robots Meta", category := Category.technical,
      status := Status.passed, message := "No indexing restrictions" }

/-- Check 15: robots.txt (auxiliary fetch; `none` = the fetch threw and
the surrounding `catch` ran). -/
def robotsTxtCheck (robotsRes : Option FetchResponse) : AuditCheck :=
  match robotsRes with
  | some r =>
    if r.status = 200 ∧ jsIncludes (jsToLower r.body) "user-agent" then
      { id := "robots-txt", name := "robots.txt", category := Category.technical,
        status := Status.passed, message := "robots.txt found" }
    else
      { id := "robots-txt", name := "robots.txt", category := Category.technical,
        status := Status.warning, message := "No valid robots.txt",
        fix := some "Create a robots.txt to guide search engine crawlers" }
  | none =>
    { id := "robots-txt", name := "robots.txt", category := Category.technical,
      status := Status.info, message := "Could not check robots.txt" }

/-- Check 16: XML sitemap (auxiliary fetch).  The condition mirrors the
source token for token, including its operator precedence:
`smRes.status === 200 && smRes.data.includes('<urlset') || smRes.data.includes('<sitemapindex')`
parses as `(status === 200 && includes '<urlset') || includes '<sitemapindex'`. -/
def sitemapCheck (smRes : Option FetchResponse) : AuditCheck :=
  match smRes with
  | some r =>
    if (r.status = 200 ∧ jsIncludes r.body "<urlset") ∨ jsIncludes r.body "<sitemapindex" then
      { id := "sitemap", name := "XML Sitemap", category := Category.technical,
        status := Status.passed, message := "Sitemap found" }
    else
      { id := "sitemap", name := "XML Sitemap", category := Category.technical,
        status := Status.warning, message := "No sitemap.xml found",
        fix := some "Create a sitemap.xml and submit to Google Search Console" }
  | none =>
    { id := "sitemap", name := "XML Sitemap", category := Category.technical,
      status := Status.info, message := "Could not check sitemap" }

/-- Check 17: Open Graph title. -/
def ogTitleCheck (ogTitle : Option String) : AuditCheck :=
  if jsFalsy ogTitle then
    { id := "og-title", name := "OG Title", category := Category.social,
      status := Status.warning, message := "Missing Open Graph title",
      fix := some "Add <meta property=\"og:title\" content=\"...\"> for social sharing" }
  else
    { id := "og-title", name := "OG Title", category := Category.social,
      status := Status.passed, message := "OG title set" }

/-- Check 18: Open Graph image. -/
def ogImageCheck (ogImage : Option String) : AuditCheck :=
  if jsFalsy ogImage then
    { id := "og-image", name := "OG Image", category := Category.social,
      status := Status.warning, message := "Missing Open Graph image",
      fix := some "Add <meta property=\"og:image\" content=\"...\"> (1200×630px recommended)" }
  else
    { id := "og-image", name := "OG Image", category := Category.social,
      status := Status.passed, message := "OG image set" }

/-- Check 19: Open Graph description. -/
def ogDescCheck (ogDescription : Option String) : AuditCheck :=
  if jsFalsy ogDescription then
    { id := "og-desc", name := "OG Description", category := Category.social,
      status := Status.warning, message := "Missing Open Graph description",
      fix := some "Add <meta property=\"og:description\" content=\"...\">" }
  else
    { id := "og-desc", name := "OG Description", category := Category.social,
      status := Status.passed, message := "OG description set" }

/-- Check 20: Twitter card. -/
def twitterCardCheck (twitterCard : Option String) : AuditCheck :=
  match twitterCard with
  | none =>
    { id := "twitter-card", name := "Twitter Card", category := Category.social,
      status := Status.info, message := "No Twitter card meta tags",
      fix := some "Add <meta name=\"twitter:card\" content=\"summary_large_image\"> for Twitter sharing" }
  | some tc =>
    if tc = "" then
      { id := "twitter-card", name := "Twitter Card", category := Category.social,
        status := Status.info, message := "No Twitter card meta tags",
        fix := some "Add <meta name=\"twitter:card\" content=\"summary_large_image\"> for Twitter sharing" }
    else
      { id := "twitter-card", name := "Twitter Card", category := Category.social,
        status := Status.passed, message := "Twitter card: " ++ tc }

/-- Check 21: response time. -/
def responseTimeCheck (responseTimeMs : Nat) : AuditCheck :=
  if responseTimeMs > 3000 then
    { id := "response-time", name := "Response Time", category := Category.performance,
      status := Status.critical,
      message := "Slow response (" ++ toFixed1Seconds responseTimeMs ++ "s)",
      fix := some "Optimize server response time — aim for under 1 second" }
  else if responseTimeMs > 1500 then
    { id := "response-time", name := "Response Time", category := Category.performance,
      status := Status.warning,
      message := "Response time: " ++ toFixed1Seconds responseTimeMs ++ "s",
      fix := some "Consider CDN or server optimization" }
  else
    { id := "response-time", name := "Response Time", category := Category.performance,
      status := Status.passed,
      message := "Fast response (" ++ toString responseTimeMs ++ "ms)" }

/-- Check 22: HTML size. -/
def pageSizeCheck (htmlSizeKb : Nat) : AuditCheck :=
  if htmlSizeKb > 500 then
    { id := "page-size", name := "HTML Size", category := Category.performance,
      status := Status.warning,
      message := "Large HTML (" ++ toString htmlSizeKb ++ "KB)",
      fix := some "Reduce HTML size — consider minification and removing inline styles/scripts" }
  else
    { id := "page-size", name := "HTML Size", category := Category.performance,
      status := Status.passed,
      message := "HTML size: " ++ toString htmlSizeKb ++ "KB" }

/-- The single finding pushed by the outer `catch` of `auditUrl`. -/
def fetchFailCheck (errorMessage : String) : AuditCheck :=
  { id := "fetch", name := "Page Fetch", category := Category.technical,
    status := Status.critical,
    message := "Failed to fetch: " ++ errorMessage,
    fix := some "Ensure the URL is correct and the server is accessible" }

/-! ## Aggregation and scoring -/

/-- The `summary` tally: per-severity filter counts over the emitted
findings. -/
def summarize (checks : List AuditCheck) : Summary :=
  { critical := (checks.filter (fun c => c.status == Status.critical)).length,
    warnings := (checks.filter (fun c => c.status == Status.warning)).length,
    passed := (checks.filter (fun c => c.status == Status.passed)).length,
    info := (checks.filter (fun c => c.status == Status.info)).length }

/-- `Math.round(((summary.passed * 1 + summary.warnings * 0.4) / totalScorable) * 100)`
with `totalScorable = scorable.length || 1`, modelled exactly over the
integers (numerator and denominator scaled by 100; the IEEE-double
evaluation agrees on every reachable tally). -/
def scoreOfChecks (checks : List AuditCheck) : Nat :=
  let summary := summarize checks
  let scorable := checks.filter (fun c => c.status != Status.info)
  let totalScorable := if scorable.length = 0 then 1 else scorable.length
  jsRound (summary.passed * 100 + summary.warnings * 40) totalScorable

/-- The return value construction of `auditUrl` (lines building `summary`,
`score` and the final object literal): `score` is `Math.min(score, 100)`
while `grade` is computed from the uncapped value. -/
def buildResult (url : String) (checks : List AuditCheck) (meta : PageMeta) : AuditResult :=
  let summary := summarize checks
  let score := scoreOfChecks checks
  { url := url, score := min score 100, grade := gradeFromScore score,
    checks := checks, summary := summary, meta := meta }

/-- The check list of a successful audit, in source push order. -/
def successChecks (url : String) (d : Doc) (meta : PageMeta) (env : Env) : List AuditCheck :=
  [titleCheck d.titleText,
   descCheck d.descriptionContent,
   canonicalCheck d.canonicalHref,
   langCheck d.htmlLang,
   h1Check d.h1Texts,
   headingCheck d.headingLevels,
   wordCountCheck d.bodyText,
   imgAltCheck d.imgs] ++
  (imgLazyCheck d.imgs).toList ++
  [httpsCheck url,
   viewportCheck d.viewportContent,
   faviconCheck d.faviconHref,
   structuredDataCheck d.jsonLdCount d.jsonLdTypes,
   robotsMetaCheck d.robotsMetaContent,
   robotsTxtCheck env.robots,
   sitemapCheck env.sitemap,
   ogTitleCheck d.ogTitle,
   ogImageCheck d.ogImage,
   ogDescCheck d.ogDescription,
   twitterCardCheck d.twitterCard,
   responseTimeCheck meta.responseTimeMs,
   pageSizeCheck meta.htmlSizeKb]

/-- The page metadata of a successful audit (every `meta.x = ...`
assignment of the source). -/
def successMeta (m : MainSuccess) : PageMeta :=
  { title := jsOrNull (jsTrim m.doc.titleText),
    description := jsOrNullOpt (m.doc.descriptionContent.map jsTrim),
    ogImage := jsOrNullOpt m.doc.ogImage,
    favicon := jsOrNullOpt m.doc.faviconHref,
    responseTimeMs := m.elapsedMs,
    htmlSizeKb := jsRound m.body.utf8ByteSize 1024,
    isShopify := jsIncludes m.body "Shopify.theme" || jsIncludes m.body "cdn.shopify.com" ||
      m.doc.shopifyCheckoutMeta }

/-- The audit engine `auditUrl`, as a pure function of the input string
and the external fetch/parse outcomes. -/
def auditUrl (url : String) (env : Env) : AuditResult :=
  let url := normalizeUrl url
  match env.main with
  | MainResult.netErr msg =>
      buildResult url [fetchFailCheck msg] defaultMeta
  | MainResult.badBody msg elapsedMs =>
      buildResult url [fetchFailCheck msg] { defaultMeta with responseTimeMs := elapsedMs }
  | MainResult.ok m =>
      let meta := successMeta m
      buildResult url (successChecks url m.doc meta env) meta

/-! ## Specification-side definitions

These follow the wording of the specification (not the source) and are
compared against the embedded engine in the claim theorems. -/

/-- The specification's `round` for the non-negative score value:
round half up, as JS `Math.round` behaves on non-negative numbers. -/
def specRound (q : ℚ) : Nat := Nat.floor (q + 1 / 2)

/-- The specification's score formula:
`round((passedCount*1.0 + warningCount*0.4) / max(1, scorableCount) * 100)`. -/
def specScore (passedCount warningCount scorableCount : Nat) : Nat :=
  specRound (((passedCount : ℚ) * 1 + (warningCount : ℚ) * 0.4) /
    ((max 1 scorableCount : ℕ) : ℚ) * 100)

/-- A string contains a URL scheme, in the claim's sense: a `://`
separator occurs in it. -/
def specHasScheme (s : String) : Bool := jsIncludes s "://"

/-- Some adjacent pair of the heading-level sequence increases by more
than 1 (the claim's wording for a broken hierarchy). -/
def specAdjSkip (levels : List Nat) : Bool :=
  (levels.zip levels.tail).any (fun p => (p.2 : Int) - (p.1 : Int) > 1)

/-! ## Concrete demonstration inputs -/

/-- An image carrying alt text. -/
def imgWithAlt : Img := { alt := some "product photo", src := some "/a.jpg", loading := none }

/-- An image with no alt attribute. -/
def imgNoAlt : Img := { alt := none, src := some "/b.jpg", loading := none }

/-- Ten images, six of which lack alt text. -/
def demoImgs10 : List Img := List.replicate 4 imgWithAlt ++ List.replicate 6 imgNoAlt

/-- A parsed document of a healthy page. -/
def demoDoc : Doc :=
  { titleText := "ShopAudit Demo Store — Quality Goods and Fast Shipping",
    descriptionContent := some "A demo store description used for determinism checks.",
    canonicalHref := some "https://shop.example/",
    htmlLang := some "en",
    h1Texts := ["Welcome to the demo store"],
    headingLevels := [1, 2, 3],
    bodyText := "hello world from the demo shop",
    imgs := [imgWithAlt],
    viewportContent := some "width=device-width, initial-scale=1",
    faviconHref := some "/favicon.ico",
    jsonLdCount := 1,
    jsonLdTypes := ["Product"],
    robotsMetaContent := none,
    ogTitle := some "Demo Store",
    ogImage := some "/og.png",
    ogDescription := some "Demo store description",
    twitterCard := some "summary_large_image",
    shopifyCheckoutMeta := false }

/-- An environment whose main fetch succeeds. -/
def demoEnv : Env :=
  { main := MainResult.ok { body := "<html><head></head><body>demo</body></html>",
                            doc := demoDoc, elapsedMs := 120 },
    robots := some { status := 200, body := "User-agent: *\nAllow: /" },
    sitemap := some { status := 200, body := "<urlset></urlset>" } }

/-- A reachable auxiliary-fetch outcome for `/sitemap.xml`: HTTP 404
whose error page happens to contain the `<sitemapindex` marker. -/
def sitemapIndex404 : FetchResponse :=
  { status := 404,
    body := "<sitemapindex xmlns=\"http://www.sitemaps.org/schemas/sitemap/0.9\"></sitemapindex>" }

/-- An environment where a response arrived but its body was not a
string, so `Buffer.byteLength` threw after `responseTimeMs` was set. -/
def envBadBody : Env :=
  { main := MainResult.badBody "The first argument must be of type string" 7,
    robots := none, sitemap := none }

/-! ## Helper lemmas -/

/-- `jsRound` is monotone in its numerator. -/
theorem jsRound_le_jsRound (n m t : Nat) (h : n ≤ m) : jsRound n t ≤ jsRound m t :=
  Nat.div_le_div_right (by omega)

/-- `⌊num/t + 1/2⌋ = (2*num + t) / (2*t)` for positive `t`. -/
theorem jsRound_eq_floor (num t : Nat) (ht : 0 < t) :
    Nat.floor ((num : ℚ) / (t : ℚ) + 1 / 2) = jsRound num t := by
  have ht' : (t : ℚ) ≠ 0 := by positivity
  have h1 : (num : ℚ) / (t : ℚ) + 1 / 2
      = ((2 * num + t : ℕ) : ℚ) / ((2 * t : ℕ) : ℚ) := by
    push_cast
    field_simp
    ring
  rw [h1, Nat.floor_div_nat (α := ℚ), Nat.floor_natCast, jsRound]

/-- The specification's score formula, rewritten over the integers. -/
theorem specScore_eq_jsRound (p w s : Nat) :
    specScore p w s = jsRound (p * 100 + w * 40) (max 1 s) := by
  have ht : 0 < max 1 s := by omega
  have hne : ((max 1 s : ℕ) : ℚ) ≠ 0 := Nat.cast_ne_zero.mpr (by omega)
  have h04 : (0.4 : ℚ) = 2 / 5 := by norm_num
  have hq : ((p : ℚ) * 1 + (w : ℚ) * 0.4) / ((max 1 s : ℕ) : ℚ) * 100
      = ((p * 100 + w * 40 : ℕ) : ℚ) / ((max 1 s : ℕ) : ℚ) := by
    rw [h04]
    push_cast
    field_simp
    ring
  rw [specScore, specRound, hq, jsRound_eq_floor _ _ ht]

/-- The engine's score computation agrees with the specification's
formula, with the severity counts read off the finding list. -/
theorem scoreOfChecks_eq_specScore (l : List AuditCheck) :
    scoreOfChecks l = specScore
      ((l.filter (fun c => c.status == Status.passed)).length)
      ((l.filter (fun c => c.status == Status.warning)).length)
      ((l.filter (fun c => c.status != Status.info)).length) := by
  rw [specScore_eq_jsRound, scoreOfChecks]
  simp only [summarize]
  congr 1
  split <;> omega

/-- The four per-severity filter counts partition any finding list. -/
theorem status_counts_partition (l : List AuditCheck) :
    (l.filter (fun c => c.status == Status.critical)).length
      + (l.filter (fun c => c.status == Status.warning)).length
      + (l.filter (fun c => c.status == Status.passed)).length
      + (l.filter (fun c => c.status == Status.info)).length = l.length := by
  induction l with
  | nil => rfl
  | cons c t ih =>
    cases h : c.status <;> simp [List.filter_cons, h] <;> omega

/-- The source's short-circuiting `hierarchyBroken` loop detects exactly
an adjacent increase of more than one level. -/
theorem hierarchyBroken_eq_specAdjSkip (l : List Nat) :
    hierarchyBroken l = specAdjSkip l := by
  induction l with
  | nil => rfl
  | cons a t ih =>
    cases t with
    | nil => rfl
    | cons b r =>
      simp only [hierarchyBroken, specAdjSkip, List.tail_cons, List.zip_cons_cons,
        List.any_cons] at *
      rw [← ih]

/-- At most as many missing-alt entries as images. -/
theorem missingAltList_length_le (imgs : List Img) :
    (missingAltList imgs).length ≤ imgs.length :=
  List.length_filterMap_le _ _

/-- Severity of the image-alt check, as a function of the image count and
the missing-alt count. -/
theorem imgAltCheck_status (imgs : List Img) :
    (imgAltCheck imgs).status =
      (if imgs.length = 0 then Status.info
       else if (missingAltList imgs).length = 0 then Status.passed
       else if (missingAltList imgs).length > 5 then Status.critical
       else Status.warning) := by
  by_cases h : imgs.length = 0
  · simp [imgAltCheck, h]
  · by_cases h2 : (missingAltList imgs).length = 0
    · simp [imgAltCheck, h, h2]
    · have h2' : (missingAltList imgs).length > 0 := by omega
      by_cases h5 : (missingAltList imgs).length > 5
      · simp [imgAltCheck, h, h2, h2', h5]
      · simp [imgAltCheck, h, h2, h2', h5]

/-- Details of the image-alt check when some image lacks alt text. -/
theorem imgAltCheck_details (imgs : List Img) (h0 : imgs.length ≠ 0)
    (h1 : (missingAltList imgs).length > 0) :
    (imgAltCheck imgs).details = some ((missingAltList imgs).take 5) := by
  simp only [imgAltCheck]
  rw [if_neg h0, if_pos h1]

/-- Every listed missing-alt entry is at most 60 characters long. -/
theorem missingAltEntry_length_le (src : Option String) :
    jsLength (missingAltEntry src) ≤ 60 := by
  cases src with
  | none => decide
  | some s =>
    simp only [missingAltEntry, jsSubstringTo]
    split
    · decide
    · exact List.length_take_le 60 s.toList

/-- Every element of the missing-alt list is at most 60 characters long. -/
theorem missingAltList_length_bound (imgs : List Img) :
    ∀ s ∈ missingAltList imgs, jsLength s ≤ 60 := by
  intro s hs
  simp only [missingAltList, List.mem_filterMap] at hs
  obtain ⟨img, _, himg⟩ := hs
  split at himg
  · obtain rfl := Option.some_injective _ himg
    exact missingAltEntry_length_le _
  · split at himg
    · obtain rfl := Option.some_injective _ himg
      exact missingAltEntry_length_le _
    · exact absurd himg (by simp)

/-! ## Claim theorems -/

/-- C1: for every audit, the returned report's score equals
`round((passedCount*1.0 + warningCount*0.4) / max(1, scorableCount) * 100)`
capped at 100, where `scorableCount` counts the emitted findings whose
severity is not `info` (and `critical` findings contribute 0 to the
numerator). -/
theorem claim_C1_score_formula (url : String) (env : Env) :
    (auditUrl url env).score =
      min (specScore
        (((auditUrl url env).checks.filter (fun c => c.status == Status.passed)).length)
        (((auditUrl url env).checks.filter (fun c => c.status == Status.warning)).length)
        (((auditUrl url env).checks.filter (fun c => c.status != Status.info)).length)) 100 := by
  cases henv : env.main <;>
    simp only [auditUrl, henv, buildResult] <;>
    rw [scoreOfChecks_eq_specScore]

/-- C3: in every audit report, the summary tallies are the per-severity
counts of the emitted findings, and they sum to the length of the check
list. -/
theorem claim_C3_summary_partition (url : String) (env : Env) :
    (auditUrl url env).summary.critical + (auditUrl url env).summary.warnings
        + (auditUrl url env).summary.passed + (auditUrl url env).summary.info
      = (auditUrl url env).checks.length ∧
    (auditUrl url env).summary.critical
      = ((auditUrl url env).checks.filter (fun c => c.status == Status.critical)).length ∧
    (auditUrl url env).summary.warnings
      = ((auditUrl url env).checks.filter (fun c => c.status == Status.warning)).length ∧
    (auditUrl url env).summary.passed
      = ((auditUrl url env).checks.filter (fun c => c.status == Status.passed)).length ∧
    (auditUrl url env).summary.info
      = ((auditUrl url env).checks.filter (fun c => c.status == Status.info)).length := by
  cases henv : env.main <;>
    simp only [auditUrl, henv, buildResult, summarize] <;>
    exact ⟨status_counts_partition _, trivial, trivial, trivial, trivial⟩

/-- C4: evaluation of the sitemap check at a reachable non-200 response
whose body contains the `<sitemapindex` marker.  The specification says
every reachable non-200 response yields `warning`; the code's
un-parenthesised condition
`status === 200 && includes('<urlset') || includes('<sitemapindex')`
yields `passed` here. -/
theorem claim_C4_sitemap_non200_passed :
    (sitemapCheck (some sitemapIndex404)).status = Status.passed ∧
    sitemapIndex404.status ≠ 200 := by
  constructor
  · decide
  · decide

/-- C5 (counterexample): `ftp://example.com` contains a URL scheme, yet
`auditUrl` does not leave it unchanged — it is prefixed with `https://`
because the code only tests `url.startsWith('http')`. -/
theorem claim_C5_counterexample :
    specHasScheme "ftp://example.com" = true ∧
    (auditUrl "ftp://example.com"
        { main := MainResult.netErr "err", robots := none, sitemap := none }).url
      = "https://ftp://example.com" ∧
    ("https://ftp://example.com" : String) ≠ "ftp://example.com" := by
  refine ⟨by decide, ?_, by decide⟩
  decide

/-- C5 (amended): the audited URL (the `url` field of the report) is the
input prefixed with `https://` exactly when the input does not start with
`http`; inputs starting with `http` are left unchanged. -/
theorem claim_C5_url_normalization (url : String) (env : Env) :
    (auditUrl url env).url =
      (if jsStartsWith url "http" then url else "https://" ++ url) := by
  cases henv : env.main <;>
    simp only [auditUrl, henv, buildResult, normalizeUrl]

/-- C2: upgrading the severity of any single finding from `critical` to
`warning`, or from `warning` to `passed`, with every other finding and
every other field unchanged, never decreases the report score. -/
theorem claim_C2_upgrade_monotone (url : String) (m : PageMeta)
    (pre post : List AuditCheck) (c : AuditCheck) (s' : Status)
    (hup : (c.status = Status.critical ∧ s' = Status.warning) ∨
           (c.status = Status.warning ∧ s' = Status.passed)) :
    (buildResult url (pre ++ c :: post) m).score ≤
      (buildResult url (pre ++ { c with status := s' } :: post) m).score := by
  have key : scoreOfChecks (pre ++ c :: post) ≤
      scoreOfChecks (pre ++ { c with status := s' } :: post) := by
    rcases hup with ⟨h1, h2⟩ | ⟨h1, h2⟩ <;> subst h2 <;>
      simp only [scoreOfChecks, summarize, List.filter_append, List.filter_cons,
        List.length_append, h1] <;>
      simp <;>
      apply jsRound_le_jsRound <;>
      omega
  simp only [buildResult]
  exact min_le_min key (le_refl 100)

/-- C2 witness: a concrete `critical` to `warning` upgrade. -/
theorem claim_C2_witness :
    (buildResult "https://example.com" ([] ++ fetchFailCheck "boom" :: []) defaultMeta).score ≤
      (buildResult "https://example.com"
        ([] ++ { fetchFailCheck "boom" with status := Status.warning } :: []) defaultMeta).score :=
  claim_C2_upgrade_monotone "https://example.com" defaultMeta [] [] (fetchFailCheck "boom")
    Status.warning (Or.inl ⟨rfl, rfl⟩)

/-- C6 (counterexample): a main-fetch failure in which a response arrived
but its body was non-parseable.  The report has exactly the one critical
`technical` finding, but `meta.responseTimeMs` is the elapsed time (7 ms
here), not its zero default, because the source assigns it before
`Buffer.byteLength` throws. -/
theorem claim_C6_counterexample :
    ((auditUrl "https://api.example.com" envBadBody).checks.map (fun c => c.status)
        = [Status.critical]) ∧
    ((auditUrl "https://api.example.com" envBadBody).checks.map (fun c => c.category)
        = [Category.technical]) ∧
    (auditUrl "https://api.example.com" envBadBody).meta.responseTimeMs = 7 ∧
    (auditUrl "https://api.example.com" envBadBody).meta ≠ defaultMeta := by
  refine ⟨?_, ?_, ?_, ?_⟩ <;> decide

/-- C6 (amended): on every main-fetch failure the report contains exactly
one finding — the `critical`, `technical` fetch-failure finding carrying
the error message — and the page metadata keeps its null/zero defaults,
except that `responseTimeMs` holds the elapsed time when a response was
received whose body then proved non-parseable (on a network error or
timeout it stays 0). -/
theorem claim_C6_fetch_failure_report (url : String) (env : Env) :
    (∀ msg, env.main = MainResult.netErr msg →
      (auditUrl url env).checks = [fetchFailCheck msg] ∧
      (auditUrl url env).meta = defaultMeta) ∧
    (∀ msg ms, env.main = MainResult.badBody msg ms →
      (auditUrl url env).checks = [fetchFailCheck msg] ∧
      (auditUrl url env).meta = { defaultMeta with responseTimeMs := ms }) ∧
    (∀ msg, (fetchFailCheck msg).status = Status.critical ∧
      (fetchFailCheck msg).category = Category.technical ∧
      (fetchFailCheck msg).message = "Failed to fetch: " ++ msg) := by
  refine ⟨?_, ?_, ?_⟩
  · intro msg h
    simp only [auditUrl, h]
    exact ⟨rfl, rfl⟩
  · intro msg ms h
    simp only [auditUrl, h]
    exact ⟨rfl, rfl⟩
  · intro msg
    exact ⟨rfl, rfl, rfl⟩

/-- C6 witness: the amended statement at a concrete timed-out fetch. -/
theorem claim_C6_witness :
    (auditUrl "x.com" { main := MainResult.netErr "timeout of 20000ms exceeded",
                        robots := none, sitemap := none }).checks
        = [fetchFailCheck "timeout of 20000ms exceeded"] ∧
    (auditUrl "x.com" { main := MainResult.netErr "timeout of 20000ms exceeded",
                        robots := none, sitemap := none }).meta = defaultMeta :=
  (claim_C6_fetch_failure_report "x.com" _).1 "timeout of 20000ms exceeded" rfl

/-- C7: the image-alt check is `info` on a page with no images,
`critical` when more than 5 images lack alt text, `warning` when between
1 and 5 lack it, `passed` when none lack it; when some lack it, the
details list the first at-most-5 offending sources, each at most 60
characters.  In particular, 10 images with 6 missing alts give `critical`
with exactly 5 detail entries. -/
theorem claim_C7_img_alt (imgs : List Img) :
    (imgs = [] → (imgAltCheck imgs).status = Status.info) ∧
    ((missingAltList imgs).length > 5 → (imgAltCheck imgs).status = Status.critical) ∧
    (imgs ≠ [] → 1 ≤ (missingAltList imgs).length → (missingAltList imgs).length ≤ 5 →
      (imgAltCheck imgs).status = Status.warning) ∧
    (imgs ≠ [] → missingAltList imgs = [] → (imgAltCheck imgs).status = Status.passed) ∧
    ((missingAltList imgs).length > 0 →
      (imgAltCheck imgs).details = some ((missingAltList imgs).take 5) ∧
      ((missingAltList imgs).take 5).length ≤ 5 ∧
      ∀ s ∈ (missingAltList imgs).take 5, jsLength s ≤ 60) ∧
    ((imgAltCheck demoImgs10).status = Status.critical ∧
      (missingAltList demoImgs10).length = 6 ∧ demoImgs10.length = 10 ∧
      ((imgAltCheck demoImgs10).details.getD []).length = 5) := by
  have hle := missingAltList_length_le imgs
  refine ⟨?_, ?_, ?_, ?_, ?_, ?_⟩
  · intro h
    subst h
    rfl
  · intro h
    rw [imgAltCheck_status]
    rw [if_neg (by omega), if_neg (by omega), if_pos h]
  · intro h0 h1 h5
    rw [imgAltCheck_status]
    have : imgs.length ≠ 0 := by
      simpa using fun hnil => h0 (List.length_eq_zero.mp hnil)
    rw [if_neg this, if_neg (by omega), if_neg (by omega)]
  · intro h0 hmiss
    rw [imgAltCheck_status]
    have : imgs.length ≠ 0 := by
      simpa using fun hnil => h0 (List.length_eq_zero.mp hnil)
    rw [if_neg this, if_pos (by simp [hmiss])]
  · intro h1
    refine ⟨imgAltCheck_details imgs (by omega) h1, ?_, ?_⟩
    · exact le_trans (List.length_take_le _ _) (le_refl 5)
    · intro s hs
      exact missingAltList_length_bound imgs s (List.mem_of_mem_take hs)
  · refine ⟨?_, ?_, ?_, ?_⟩ <;> decide

/-- C7 witness: the characterization applied to the concrete
10-images-6-missing page and to the empty page. -/
theorem claim_C7_witness :
    (imgAltCheck []).status = Status.info ∧
    (imgAltCheck demoImgs10).status = Status.critical ∧
    (imgAltCheck demoImgs10).details = some ((missingAltList demoImgs10).take 5) :=
  ⟨(claim_C7_img_alt []).1 rfl,
   (claim_C7_img_alt demoImgs10).2.1 (by decide),
   ((claim_C7_img_alt demoImgs10).2.2.2.2.1 (by decide)).1⟩

/-- C8: the heading-hierarchy check is `warning` when the document-order
heading-level sequence is empty or some adjacent pair increases by more
than 1, and `passed` otherwise; `[1,2,4]` gives `warning` and `[1,2,3]`
gives `passed`. -/
theorem claim_C8_heading_hierarchy (levels : List Nat) :
    ((headingCheck levels).status =
      (if levels = [] then Status.warning
       else if specAdjSkip levels then Status.warning
       else Status.passed)) ∧
    (headingCheck [1, 2, 4]).status = Status.warning ∧
    (headingCheck [1, 2, 3]).status = Status.passed := by
  refine ⟨?_, by decide, by decide⟩
  simp only [headingCheck, hierarchyBroken_eq_specAdjSkip]
  rcases eq_or_ne levels [] with h | h
  · subst h
    simp
  · have hlen : levels.length ≠ 0 := by
      simpa using fun hnil => h (List.length_eq_zero.mp hnil)
    rw [if_neg hlen, if_neg h]
    by_cases hb : specAdjSkip levels
    · rw [if_pos hb, if_pos hb]
    · rw [if_neg hb, if_neg hb]

/-- C9: with all fetch results (and the parsed document and timing they
carry) held identical, two runs of `auditUrl` produce the same checks
list, in the same order, and the same score. -/
theorem claim_C9_deterministic (url : String) (env1 env2 : Env) (h : env1 = env2) :
    (auditUrl url env1).checks = (auditUrl url env2).checks ∧
    (auditUrl url env1).score = (auditUrl url env2).score := by
  subst h
  exact ⟨rfl, rfl⟩

/-- C9 witness: determinism at a concrete successful environment. -/
theorem claim_C9_witness :
    (auditUrl "shop.example" demoEnv).checks = (auditUrl "shop.example" demoEnv).checks ∧
    (auditUrl "shop.example" demoEnv).score = (auditUrl "shop.example" demoEnv).score :=
  claim_C9_deterministic "shop.example" demoEnv demoEnv rfl

/-- Score 0 and grade F of a report holding only the fetch-failure
finding. -/
theorem failure_report_score (u : String) (msg : String) (m : PageMeta) :
    (buildResult u [fetchFailCheck msg] m).score = 0 ∧
    (buildResult u [fetchFailCheck msg] m).grade = "F" := by
  constructor
  · simp [buildResult, scoreOfChecks, summarize, fetchFailCheck, jsRound]
  · simp [buildResult, scoreOfChecks, summarize, fetchFailCheck, jsRound, gradeFromScore]

/-- C10: on every main-fetch failure the report's score is exactly 0 and
its grade is `F` — the single critical finding is the only scorable one,
so the formula yields 0. -/
theorem claim_C10_failure_score (url : String) (env : Env)
    (h : (∃ msg, env.main = MainResult.netErr msg) ∨
         (∃ msg ms, env.main = MainResult.badBody msg ms)) :
    (auditUrl url env).score = 0 ∧ (auditUrl url env).grade = "F" := by
  rcases h with ⟨msg, h⟩ | ⟨msg, ms, h⟩ <;>
    simp only [auditUrl, h] <;>
    exact failure_report_score _ _ _

/-- C10 witness: a concrete refused connection scores 0 with grade F. -/
theorem claim_C10_witness :
    (auditUrl "x.com" { main := MainResult.netErr "connect ECONNREFUSED",
                        robots := none, sitemap := none }).score = 0 ∧
    (auditUrl "x.com" { main := MainResult.netErr "connect ECONNREFUSED",
                        robots := none, sitemap := none }).grade = "F" :=
  claim_C10_failure_score "x.com" _ (Or.inl ⟨"connect ECONNREFUSED", rfl⟩)

end ShopAudit
